import Mathlib

/-!
Shallow embedding of the core scoring and interpretation engine of
`src/app.py` (classroom-reflection-mvp): the CEI score calculator
`compute_cei` and the trend interpreter `interpret_engagement`, together
with the constant tables `CEI_WEIGHTS`, `CEI_LEVEL_SCORES` and
`ENGAGEMENT_RULES` they read.

Numeric values are modelled over `ℚ`.  Python's `round(x, 2)` is modelled
by `round2`, rounding half to even (Python's rounding mode); no value
in this development sits on a tie, so the tie-breaking choice does not
affect any statement below.
-/

namespace ClassroomReflection

/-- `CEI_WEIGHTS["participation"]` from src/app.py (40% of CEI). -/
def CEI_WEIGHTS_participation : ℚ := 4/10

/-- `CEI_WEIGHTS["attentiveness"]` from src/app.py (40% of CEI). -/
def CEI_WEIGHTS_attentiveness : ℚ := 4/10

/-- `CEI_WEIGHTS["presence"]` from src/app.py (20% of CEI). -/
def CEI_WEIGHTS_presence : ℚ := 2/10

/-- The dictionary lookup `CEI_LEVEL_SCORES.get(level, 0)` from src/app.py:
low maps to 10, medium to 25, high to 40, any other string to the default 0. -/
def CEI_LEVEL_SCORES (level : String) : ℚ :=
  if level = "low" then 10
  else if level = "medium" then 25
  else if level = "high" then 40
  else 0

/-- Rounding a rational to the nearest integer, ties to even:
the integer rounding underlying Python's `round`. -/
def roundHalfEven (q : ℚ) : ℤ :=
  let f := ⌊q⌋
  let r := q - f
  if r < 1/2 then f
  else if 1/2 < r then f + 1
  else if f % 2 = 0 then f
  else f + 1

/-- Python's `round(x, 2)`: round to two decimal places. -/
def round2 (q : ℚ) : ℚ := (roundHalfEven (q * 100) : ℚ) / 100

/-- The expression bound to `presence_score` in `compute_cei`
(line 136 of src/app.py):
`min((present / class_size) * CEI_LEVEL_SCORES["high"], CEI_LEVEL_SCORES["high"])`. -/
def presence_score (present class_size : ℤ) : ℚ :=
  min (((present : ℚ) / (class_size : ℚ)) * CEI_LEVEL_SCORES "high")
    (CEI_LEVEL_SCORES "high")

/-- `compute_cei` from src/app.py: CEI score for a single class session. -/
def compute_cei (participation attentiveness : String)
    (present class_size : ℤ) : ℚ :=
  if class_size ≤ 0 then 0
  else
    let part_score := CEI_LEVEL_SCORES participation
    let att_score := CEI_LEVEL_SCORES attentiveness
    round2 (CEI_WEIGHTS_participation * part_score +
      CEI_WEIGHTS_attentiveness * att_score +
      CEI_WEIGHTS_presence * presence_score present class_size)

/-- One entry of `ENGAGEMENT_RULES`: a half-open band with its status and
message. -/
structure Rule where
  rmin : ℚ
  rmax : ℚ
  status : String
  message : String
deriving DecidableEq

/-- `ENGAGEMENT_RULES` from src/app.py, in source order. -/
def ENGAGEMENT_RULES : List Rule :=
  [⟨75, 100, "green", "Class is responding well. Keep your current approach."⟩,
   ⟨60, 75, "yellow", "Engagement is fair. Small adjustments may help."⟩,
   ⟨0, 60, "red", "Engagement is low. Consider changing pace or method."⟩]

/-- The `for rule in ENGAGEMENT_RULES` loop of `interpret_engagement`:
first rule whose half-open band contains `avg`, if any. -/
def findRule (avg : ℚ) : List Rule → Option (String × String)
  | [] => none
  | r :: rs =>
      if r.rmin ≤ avg ∧ avg < r.rmax then some (r.status, r.message)
      else findRule avg rs

/-- `series.mean()` on a nonempty pandas Series of rationals. -/
def mean (s : List ℚ) : ℚ := s.sum / s.length

/-- `interpret_engagement` from src/app.py: mean of the series (0 when the
series is empty), matched against `ENGAGEMENT_RULES` in order, with the
fallback pair when no band matches. -/
def interpret_engagement (series : List ℚ) : String × String :=
  let avg := if series.isEmpty then 0 else mean series
  match findRule avg ENGAGEMENT_RULES with
  | some res => res
  | none => ("red", "Engagement data unclear. Please reflect more consistently.")

/-! Evaluation lemmas for the constant tables. -/

theorem CEI_LEVEL_SCORES_low : CEI_LEVEL_SCORES "low" = 10 := rfl

theorem CEI_LEVEL_SCORES_medium : CEI_LEVEL_SCORES "medium" = 25 := rfl

theorem CEI_LEVEL_SCORES_high : CEI_LEVEL_SCORES "high" = 40 := rfl

theorem CEI_LEVEL_SCORES_default (l : String) (h1 : l ≠ "low") (h2 : l ≠ "medium")
    (h3 : l ≠ "high") : CEI_LEVEL_SCORES l = 0 := by
  unfold CEI_LEVEL_SCORES
  rw [if_neg h1, if_neg h2, if_neg h3]

theorem CEI_LEVEL_SCORES_nonneg (l : String) : 0 ≤ CEI_LEVEL_SCORES l := by
  unfold CEI_LEVEL_SCORES
  split_ifs <;> norm_num

theorem CEI_LEVEL_SCORES_le_forty (l : String) : CEI_LEVEL_SCORES l ≤ 40 := by
  unfold CEI_LEVEL_SCORES
  split_ifs <;> norm_num

/-! Bounds for the rounding model. -/

theorem roundHalfEven_ge_floor (q : ℚ) : ⌊q⌋ ≤ roundHalfEven q := by
  simp only [roundHalfEven]
  split_ifs <;> omega

theorem roundHalfEven_le_int (q : ℚ) (n : ℤ) (h : q ≤ (n : ℚ)) :
    roundHalfEven q ≤ n := by
  have hfl : ⌊q⌋ ≤ n := by
    have h2 := Int.floor_le_floor h
    simpa using h2
  have hup : ¬(q - ⌊q⌋ < 1/2) → ⌊q⌋ + 1 ≤ n := by
    intro h1
    push_neg at h1
    have hq : (⌊q⌋ : ℚ) + 1/2 ≤ q := by linarith
    have hlt : (⌊q⌋ : ℚ) < (n : ℚ) := by linarith
    have : ⌊q⌋ < n := by exact_mod_cast hlt
    omega
  simp only [roundHalfEven]
  split_ifs with h1 h2 h3
  · exact hfl
  · exact hup h1
  · exact hfl
  · exact hup h1

theorem roundHalfEven_ge_int (q : ℚ) (n : ℤ) (h : (n : ℚ) ≤ q) :
    n ≤ roundHalfEven q := by
  have hfl : n ≤ ⌊q⌋ := Int.le_floor.mpr h
  have h2 := roundHalfEven_ge_floor q
  omega

theorem round2_le_int (q : ℚ) (n : ℤ) (h : q ≤ (n : ℚ)) : round2 q ≤ (n : ℚ) := by
  unfold round2
  rw [div_le_iff₀ (by norm_num : (0:ℚ) < 100)]
  have h1 : q * 100 ≤ ((n * 100 : ℤ) : ℚ) := by
    push_cast
    nlinarith
  have h2 : roundHalfEven (q * 100) ≤ n * 100 := roundHalfEven_le_int _ _ h1
  calc (roundHalfEven (q * 100) : ℚ) ≤ ((n * 100 : ℤ) : ℚ) := by exact_mod_cast h2
    _ = (n : ℚ) * 100 := by push_cast; ring

theorem round2_ge_int (q : ℚ) (n : ℤ) (h : (n : ℚ) ≤ q) : (n : ℚ) ≤ round2 q := by
  unfold round2
  rw [le_div_iff₀ (by norm_num : (0:ℚ) < 100)]
  have h1 : ((n * 100 : ℤ) : ℚ) ≤ q * 100 := by
    push_cast
    nlinarith
  have h2 : n * 100 ≤ roundHalfEven (q * 100) := roundHalfEven_ge_int _ _ h1
  calc (n : ℚ) * 100 = ((n * 100 : ℤ) : ℚ) := by push_cast; ring
    _ ≤ (roundHalfEven (q * 100) : ℚ) := by exact_mod_cast h2

/-! Bounds for the score components. -/

theorem presence_score_le_forty (present cs : ℤ) : presence_score present cs ≤ 40 := by
  have h := min_le_right (((present : ℚ) / (cs : ℚ)) * CEI_LEVEL_SCORES "high")
    (CEI_LEVEL_SCORES "high")
  rw [CEI_LEVEL_SCORES_high] at h
  exact h

theorem presence_score_nonneg (present cs : ℤ) (hp : 0 ≤ present) (hc : 0 < cs) :
    0 ≤ presence_score present cs := by
  unfold presence_score
  rw [CEI_LEVEL_SCORES_high]
  apply le_min
  · apply mul_nonneg
    · apply div_nonneg
      · exact_mod_cast hp
      · exact_mod_cast hc.le
    · norm_num
  · norm_num

theorem compute_cei_le_forty (p a : String) (present cs : ℤ) :
    compute_cei p a present cs ≤ 40 := by
  simp only [compute_cei]
  split_ifs with h
  · norm_num
  · have h1 := CEI_LEVEL_SCORES_le_forty p
    have h2 := CEI_LEVEL_SCORES_le_forty a
    have h3 := presence_score_le_forty present cs
    have hsum : CEI_WEIGHTS_participation * CEI_LEVEL_SCORES p +
        CEI_WEIGHTS_attentiveness * CEI_LEVEL_SCORES a +
        CEI_WEIGHTS_presence * presence_score present cs ≤ ((40 : ℤ) : ℚ) := by
      unfold CEI_WEIGHTS_participation CEI_WEIGHTS_attentiveness CEI_WEIGHTS_presence
      push_cast
      linarith
    have h4 := round2_le_int _ 40 hsum
    exact_mod_cast h4

theorem compute_cei_nonneg (p a : String) (present cs : ℤ) (hp : 0 ≤ present) :
    0 ≤ compute_cei p a present cs := by
  simp only [compute_cei]
  split_ifs with h
  · norm_num
  · have hc : 0 < cs := by omega
    have h1 := CEI_LEVEL_SCORES_nonneg p
    have h2 := CEI_LEVEL_SCORES_nonneg a
    have h3 := presence_score_nonneg present cs hp hc
    have hsum : ((0 : ℤ) : ℚ) ≤ CEI_WEIGHTS_participation * CEI_LEVEL_SCORES p +
        CEI_WEIGHTS_attentiveness * CEI_LEVEL_SCORES a +
        CEI_WEIGHTS_presence * presence_score present cs := by
      unfold CEI_WEIGHTS_participation CEI_WEIGHTS_attentiveness CEI_WEIGHTS_presence
      push_cast
      linarith
    have h4 := round2_ge_int _ 0 hsum
    exact_mod_cast h4

/-! Evaluation of the rule scan. -/

theorem findRule_eval (q : ℚ) :
    findRule q ENGAGEMENT_RULES =
      if 75 ≤ q ∧ q < 100 then
        some ("green", "Class is responding well. Keep your current approach.")
      else if 60 ≤ q ∧ q < 75 then
        some ("yellow", "Engagement is fair. Small adjustments may help.")
      else if 0 ≤ q ∧ q < 60 then
        some ("red", "Engagement is low. Consider changing pace or method.")
      else none := rfl

theorem interpret_engagement_nonempty (s : List ℚ) (hne : s ≠ []) :
    interpret_engagement s =
      if 75 ≤ mean s ∧ mean s < 100 then
        ("green", "Class is responding well. Keep your current approach.")
      else if 60 ≤ mean s ∧ mean s < 75 then
        ("yellow", "Engagement is fair. Small adjustments may help.")
      else if 0 ≤ mean s ∧ mean s < 60 then
        ("red", "Engagement is low. Consider changing pace or method.")
      else ("red", "Engagement data unclear. Please reflect more consistently.") := by
  cases s with
  | nil => exact absurd rfl hne
  | cons x t =>
      simp only [interpret_engagement, List.isEmpty_cons, Bool.false_eq_true,
        if_false, findRule_eval]
      split_ifs <;> rfl

theorem mean_le_forty (s : List ℚ) (hne : s ≠ []) (hb : ∀ x ∈ s, x ≤ 40) :
    mean s ≤ 40 := by
  have hlen : 0 < s.length := List.length_pos.mpr hne
  have hlenQ : 0 < (s.length : ℚ) := by exact_mod_cast hlen
  have hsum : s.sum ≤ (s.length : ℚ) * 40 := by
    have h := List.sum_le_card_nsmul s 40 hb
    simpa [nsmul_eq_mul] using h
  unfold mean
  rw [div_le_iff₀ hlenQ]
  linarith

/-! Claim theorems. -/

/-- Claim C1: for every input with a positive class size, `compute_cei`
returns `round2` of `0.4 * P + 0.4 * A + 0.2 * min((present/classSize)*40, 40)`,
where P and A come from the fixed mapping low to 10, medium to 25, high to 40,
any other string to 0; in particular `compute_cei "medium" "medium" 5 10 = 24`. -/
theorem compute_cei_formula_C1 (p a : String) (present cs : ℤ) (h : 0 < cs) :
    compute_cei p a present cs =
      round2 (4/10 * CEI_LEVEL_SCORES p + 4/10 * CEI_LEVEL_SCORES a +
        2/10 * min (((present : ℚ) / (cs : ℚ)) * 40) 40) ∧
    CEI_LEVEL_SCORES "low" = 10 ∧ CEI_LEVEL_SCORES "medium" = 25 ∧
    CEI_LEVEL_SCORES "high" = 40 ∧
    (p ≠ "low" → p ≠ "medium" → p ≠ "high" → CEI_LEVEL_SCORES p = 0) ∧
    compute_cei "medium" "medium" 5 10 = 24 := by
  refine ⟨?_, rfl, rfl, rfl, fun h1 h2 h3 => CEI_LEVEL_SCORES_default p h1 h2 h3, ?_⟩
  · simp only [compute_cei, presence_score, CEI_LEVEL_SCORES_high]
    rw [if_neg (by omega : ¬ cs ≤ 0)]
    norm_num [CEI_WEIGHTS_participation, CEI_WEIGHTS_attentiveness, CEI_WEIGHTS_presence]
  · norm_num [compute_cei, CEI_WEIGHTS_participation, CEI_WEIGHTS_attentiveness,
      CEI_WEIGHTS_presence, presence_score, CEI_LEVEL_SCORES_medium,
      CEI_LEVEL_SCORES_high, round2, roundHalfEven, min_def]

/-- Witness for claim C1 at class size 10. -/
theorem compute_cei_formula_C1_witness :
    (0 : ℤ) < 10 ∧
    compute_cei "low" "high" 3 10 =
      round2 (4/10 * CEI_LEVEL_SCORES "low" + 4/10 * CEI_LEVEL_SCORES "high" +
        2/10 * min ((((3 : ℤ) : ℚ) / ((10 : ℤ) : ℚ)) * 40) 40) ∧
    compute_cei "medium" "medium" 5 10 = 24 :=
  ⟨by norm_num, (compute_cei_formula_C1 "low" "high" 3 10 (by norm_num)).1,
   (compute_cei_formula_C1 "low" "high" 3 10 (by norm_num)).2.2.2.2.2⟩

/-- Claim C2: on a nonempty series with mean m, `interpret_engagement` answers
green with its message when 75 ≤ m < 100, yellow when 60 ≤ m < 75, and the
red low-engagement pair when 0 ≤ m < 60; the bands are half-open, so mean 75
is green and mean 60 is yellow. -/
theorem interpret_engagement_bands_C2 (s : List ℚ) (hne : s ≠ []) :
    (75 ≤ mean s ∧ mean s < 100 →
      interpret_engagement s =
        ("green", "Class is responding well. Keep your current approach.")) ∧
    (60 ≤ mean s ∧ mean s < 75 →
      interpret_engagement s =
        ("yellow", "Engagement is fair. Small adjustments may help.")) ∧
    (0 ≤ mean s ∧ mean s < 60 →
      interpret_engagement s =
        ("red", "Engagement is low. Consider changing pace or method.")) := by
  have he := interpret_engagement_nonempty s hne
  refine ⟨fun h => ?_, fun h => ?_, fun h => ?_⟩ <;> rw [he]
  · rw [if_pos h]
  · rw [if_neg (by rintro ⟨h1, -⟩; linarith [h.2]), if_pos h]
  · rw [if_neg (by rintro ⟨h1, -⟩; linarith [h.2]),
      if_neg (by rintro ⟨h1, -⟩; linarith [h.2]), if_pos h]

/-- Witness for claim C2: the boundary means 75 and 60 and a low mean. -/
theorem interpret_engagement_bands_C2_witness :
    interpret_engagement [(75 : ℚ)] =
      ("green", "Class is responding well. Keep your current approach.") ∧
    interpret_engagement [(60 : ℚ)] =
      ("yellow", "Engagement is fair. Small adjustments may help.") ∧
    interpret_engagement [(30 : ℚ)] =
      ("red", "Engagement is low. Consider changing pace or method.") :=
  ⟨(interpret_engagement_bands_C2 [75] (by simp)).1 (by norm_num [mean]),
   (interpret_engagement_bands_C2 [60] (by simp)).2.1 (by norm_num [mean]),
   (interpret_engagement_bands_C2 [30] (by simp)).2.2 (by norm_num [mean])⟩

/-- Claim C3 (counterexample): on the empty series the code returns the red
low-engagement message, not the unclear-data message the claim states. -/
theorem interpret_engagement_empty_C3_counterexample :
    interpret_engagement [] =
      ("red", "Engagement is low. Consider changing pace or method.") ∧
    interpret_engagement [] ≠
      ("red", "Engagement data unclear. Please reflect more consistently.") := by
  decide

/-- Claim C3 (amended): `interpret_engagement` applied to the empty series
returns the pair ("red", "Engagement is low. Consider changing pace or
method."): the empty mean is treated as 0, which falls in the red band, so
the unclear fallback is not reached. -/
theorem interpret_engagement_empty_C3_amended :
    interpret_engagement [] =
      ("red", "Engagement is low. Consider changing pace or method.") := by
  decide

/-- Claim C4: the empty series is classified exactly like a mean of 0 (red
with the low-engagement message), and the interpreter gives a defined
answer, one of the three statuses, on every series of length 0 or 1. -/
theorem interpret_engagement_empty_mean_zero_C4 :
    interpret_engagement [] =
      ("red", "Engagement is low. Consider changing pace or method.") ∧
    interpret_engagement [] = interpret_engagement [(0 : ℚ)] ∧
    (∀ x : ℚ, (interpret_engagement [x]).1 = "green" ∨
      (interpret_engagement [x]).1 = "yellow" ∨
      (interpret_engagement [x]).1 = "red") := by
  refine ⟨by decide, ?_, ?_⟩
  · have h1 : interpret_engagement [(0 : ℚ)] =
        ("red", "Engagement is low. Consider changing pace or method.") := by
      rw [interpret_engagement_nonempty [(0 : ℚ)] (by simp)]
      norm_num [mean]
    rw [h1]
    decide
  · intro x
    rw [interpret_engagement_nonempty [x] (by simp)]
    split_ifs <;> simp

/-- Claim C5: for positive class size the presence component equals
`min((present/classSize)*40, 40)` and so never exceeds 40, even when present
exceeds classSize; in particular `compute_cei "low" "high" 100 10 = 28`. -/
theorem presence_component_clamped_C5 (present cs : ℤ) (h : 0 < cs) :
    presence_score present cs = min (((present : ℚ) / (cs : ℚ)) * 40) 40 ∧
    presence_score present cs ≤ 40 ∧
    compute_cei "low" "high" 100 10 = 28 := by
  refine ⟨?_, presence_score_le_forty present cs, ?_⟩
  · simp only [presence_score, CEI_LEVEL_SCORES_high]
  · norm_num [compute_cei, CEI_WEIGHTS_participation, CEI_WEIGHTS_attentiveness,
      CEI_WEIGHTS_presence, presence_score, CEI_LEVEL_SCORES_low,
      CEI_LEVEL_SCORES_high, round2, roundHalfEven, min_def]

/-- Witness for claim C5 at present 100 and class size 10. -/
theorem presence_component_clamped_C5_witness :
    (0 : ℤ) < 10 ∧ presence_score 100 10 ≤ 40 ∧
    compute_cei "low" "high" 100 10 = 28 :=
  ⟨by norm_num, (presence_component_clamped_C5 100 10 (by norm_num)).2.1,
   (presence_component_clamped_C5 100 10 (by norm_num)).2.2⟩

/-- Claim C6: for non-positive class size the score is 0 regardless of the
other arguments; the guard returns before the division is reached. -/
theorem compute_cei_nonpositive_class_C6 (p a : String) (present cs : ℤ)
    (h : cs ≤ 0) : compute_cei p a present cs = 0 := by
  simp only [compute_cei]
  rw [if_pos h]

/-- Witness for claim C6 at class sizes 0 and -3. -/
theorem compute_cei_nonpositive_class_C6_witness :
    (0 : ℤ) ≤ 0 ∧ compute_cei "high" "high" 25 0 = 0 ∧
    compute_cei "medium" "low" 7 (-3) = 0 :=
  ⟨le_refl 0, compute_cei_nonpositive_class_C6 "high" "high" 25 0 (le_refl 0),
   compute_cei_nonpositive_class_C6 "medium" "low" 7 (-3) (by norm_num)⟩

/-- Claim C7: for arbitrary level strings, nonnegative present count and any
class size, the score lies in the closed interval [0, 100]. -/
theorem compute_cei_range_C7 (p a : String) (present cs : ℤ) (hp : 0 ≤ present) :
    0 ≤ compute_cei p a present cs ∧ compute_cei p a present cs ≤ 100 :=
  ⟨compute_cei_nonneg p a present cs hp,
   le_trans (compute_cei_le_forty p a present cs) (by norm_num)⟩

/-- Witness for claim C7 at a concrete input. -/
theorem compute_cei_range_C7_witness :
    (0 : ℤ) ≤ 5 ∧ 0 ≤ compute_cei "medium" "medium" 5 10 ∧
    compute_cei "medium" "medium" 5 10 ≤ 100 :=
  ⟨by norm_num, (compute_cei_range_C7 "medium" "medium" 5 10 (by norm_num)).1,
   (compute_cei_range_C7 "medium" "medium" 5 10 (by norm_num)).2⟩

/-- Claim C8: when the mean of the series falls in no band (mean < 0 or
mean ≥ 100), `interpret_engagement` returns the unclear-data fallback pair. -/
theorem interpret_engagement_fallback_C8 (s : List ℚ)
    (h : mean s < 0 ∨ 100 ≤ mean s) :
    interpret_engagement s =
      ("red", "Engagement data unclear. Please reflect more consistently.") := by
  cases s with
  | nil =>
      exfalso
      have hm : mean ([] : List ℚ) = 0 := by norm_num [mean]
      rw [hm] at h
      rcases h with h | h <;> linarith
  | cons x t =>
      rw [interpret_engagement_nonempty (x :: t) (by simp)]
      rcases h with h | h
      · rw [if_neg (by rintro ⟨h1, -⟩; linarith),
          if_neg (by rintro ⟨h1, -⟩; linarith),
          if_neg (by rintro ⟨h1, -⟩; linarith)]
      · rw [if_neg (by rintro ⟨-, h2⟩; linarith),
          if_neg (by rintro ⟨-, h2⟩; linarith),
          if_neg (by rintro ⟨-, h2⟩; linarith)]

/-- Witness for claim C8: the fallback is reachable, at mean exactly 100 and
at a negative mean. -/
theorem interpret_engagement_fallback_C8_witness :
    interpret_engagement [(100 : ℚ)] =
      ("red", "Engagement data unclear. Please reflect more consistently.") ∧
    interpret_engagement [(-5 : ℚ)] =
      ("red", "Engagement data unclear. Please reflect more consistently.") :=
  ⟨interpret_engagement_fallback_C8 [100] (Or.inr (by norm_num [mean])),
   interpret_engagement_fallback_C8 [(-5)] (Or.inl (by norm_num [mean]))⟩

/-- Claim C9 (counterexample): the singleton series holding the compute_cei
output `compute_cei "low" "low" (-100) 10` (value -72) makes
`interpret_engagement` answer the unclear fallback, not the low-engagement
band, so the low-engagement band is not the only possible answer on series
of compute_cei outputs. -/
theorem compute_cei_scores_C9_counterexample :
    compute_cei "low" "low" (-100) 10 = -72 ∧
    interpret_engagement [compute_cei "low" "low" (-100) 10] =
      ("red", "Engagement data unclear. Please reflect more consistently.") ∧
    ("Engagement data unclear. Please reflect more consistently." : String) ≠
      "Engagement is low. Consider changing pace or method." := by
  have hv : compute_cei "low" "low" (-100) 10 = -72 := by
    norm_num [compute_cei, CEI_WEIGHTS_participation, CEI_WEIGHTS_attentiveness,
      CEI_WEIGHTS_presence, presence_score, CEI_LEVEL_SCORES_low,
      CEI_LEVEL_SCORES_high, round2, roundHalfEven, min_def]
  refine ⟨hv, ?_, by decide⟩
  rw [hv, interpret_engagement_nonempty [(-72 : ℚ)] (by simp)]
  norm_num [mean]

/-- Claim C9 (amended): every compute_cei output is at most 40, so a nonempty
series of compute_cei outputs has mean at most 40 < 60 and
`interpret_engagement` can only answer with status red (the low-engagement
band, or the unclear fallback when the mean is negative); the green and
yellow statuses are unreachable from computed scores. -/
theorem compute_cei_scores_only_red_C9 :
    (∀ (p a : String) (present cs : ℤ), compute_cei p a present cs ≤ 40) ∧
    (∀ s : List ℚ, s ≠ [] →
      (∀ x ∈ s, ∃ (p a : String) (present cs : ℤ),
        x = compute_cei p a present cs) →
      (interpret_engagement s).1 = "red" ∧
      (interpret_engagement s).1 ≠ "green" ∧
      (interpret_engagement s).1 ≠ "yellow") := by
  refine ⟨compute_cei_le_forty, ?_⟩
  intro s hne hsc
  have hb : ∀ x ∈ s, x ≤ 40 := by
    intro x hx
    obtain ⟨p, a, present, cs, rfl⟩ := hsc x hx
    exact compute_cei_le_forty p a present cs
  have hm : mean s ≤ 40 := mean_le_forty s hne hb
  rw [interpret_engagement_nonempty s hne]
  split_ifs with h1 h2 h3
  · exact absurd h1.1 (by linarith)
  · exact absurd h2.1 (by linarith)
  · exact ⟨rfl, by decide, by decide⟩
  · exact ⟨rfl, by decide, by decide⟩

/-- Claim C10: with a negative present count and positive class size the
clamp bounds the presence component only from above, so `compute_cei` can
return a negative value: `compute_cei "low" "low" (-100) 10 = -72 < 0`. -/
theorem compute_cei_negative_present_C10 :
    compute_cei "low" "low" (-100) 10 < 0 ∧ (-100 : ℤ) < 0 ∧ (0 : ℤ) < 10 := by
  refine ⟨?_, by norm_num, by norm_num⟩
  have hv : compute_cei "low" "low" (-100) 10 = -72 := by
    norm_num [compute_cei, CEI_WEIGHTS_participation, CEI_WEIGHTS_attentiveness,
      CEI_WEIGHTS_presence, presence_score, CEI_LEVEL_SCORES_low,
      CEI_LEVEL_SCORES_high, round2, roundHalfEven, min_def]
  rw [hv]
  norm_num

end ClassroomReflection
